import Mathlib

/-!
Verification of the Zillow-to-Snowflake pipeline script
(`data_engineering/zillow_to_snowflake_pipeline.py`).

The script is a linear batch program: fetch a CSV, rewrite its column
names, open a warehouse session, create a table, introspect it, add
missing columns, bulk-load, close.  Below we embed the column-name
transformations, the column-diff loop and the driver's sequencing as
executable Lean definitions, staying faithful to the Python source,
including its dynamic-typing behaviour (the `add_date` call site hands
the function a generator object, not a string).
-/

namespace ZillowPipeline

/-- Error kinds a run can surface.  `typeError` models Python's
`TypeError`; the others stand for exceptions raised by the warehouse
driver at the corresponding call sites. -/
inductive PyErr where
  | typeError
  | fetchError
  | authError
  | sqlError
  | loadError
deriving DecidableEq

/-- A Python value as far as the `add_date` call site is concerned:
either a string or a generator object over column names.  The call at
lines 80-84 of the source passes a generator expression, so the
distinction is load-bearing. -/
inductive PyVal where
  | str (s : String)
  | gen (cols : List String)
deriving DecidableEq

/-- Snowflake warehouse name (module constant `WAREHOUSE`). -/
def WAREHOUSE : String := "EXAMPLE_WH"

/-- Snowflake database name (module constant `DATABASE`). -/
def DATABASE : String := "EXAMPLE_DB"

/-- Snowflake schema name (module constant `SCHEMA`). -/
def SCHEMA : String := "EXAMPLE_SCHEMA"

/-- Snowflake table name used by the SELECT, ALTER and `write_pandas`
calls (module constant `TABLE`). -/
def TABLE : String := "ZHVI_COUNTY_TIMESERIES"

/-- The non-date column names of the source table, exactly as listed in
the source, leading space on the first entry included
(module constant `INITIAL_LAYOUT_COLUMN_NAMES`). -/
def INITIAL_LAYOUT_COLUMN_NAMES : List String :=
  [" REGIONID", "SIZERANK", "REGIONTYPE", "STATENAME", "STATE",
   "METRO", "STATECODEFIPS", "MUNICIPALCODEFIPS", "REGIONNAME"]

/-- The argument of the CREATE OR REPLACE TABLE statement, exactly the
concatenated string literal of the source
(module constant `INITIAL_TABLE_LAYOUT`). -/
def INITIAL_TABLE_LAYOUT : String :=
  "ZILLOW_COUNTY_ZHVI_TIMESERIES(REGIONID NUMBER(38,0), " ++
  "SIZERANK NUMBER(38,0), " ++
  "REGIONNAME VARCHAR(16777216), " ++
  "REGIONTYPE VARCHAR(16777216), " ++
  "STATENAME VARCHAR(2), " ++
  "STATE VARCHAR(2), " ++
  "METRO VARCHAR(16777216), " ++
  "STATECODEFIPS NUMBER(38,0), " ++
  "MUNICIPALCODEFIPS NUMBER(38,0));"

/-- The table name the CREATE OR REPLACE statement actually creates:
the prefix of `INITIAL_TABLE_LAYOUT` before the opening parenthesis. -/
def createdTableName : String :=
  String.mk (List.takeWhile (fun c => c ≠ '(') INITIAL_TABLE_LAYOUT.toList)

/-- `def add_date(date_ymd): return "DATE" + date_ymd` under Python's
dynamic typing: string concatenation succeeds only when the argument is
a string, and raises `TypeError` otherwise. -/
def add_date (date_ymd : PyVal) : Except PyErr PyVal :=
  match date_ymd with
  | PyVal.str s => Except.ok (PyVal.str ("DATE" ++ s))
  | PyVal.gen _ => Except.error PyErr.typeError

/-- Line 75 of the source: upper-case every column name and replace
dashes with underscores. -/
def upperUnderscore (cols : List String) : List String :=
  List.map (fun col => String.replace (String.toUpper col) ("-") ("_")) cols

/-- Lines 80-84 of the source: `df.columns` is set to the one-element
list `[add_date(<generator>)]`, where the generator ranges over the
current columns and yields `col if col in INITIAL_LAYOUT_COLUMN_NAMES
else col`.  `add_date` therefore receives a generator object, not a
string. -/
def renameStep (cols : List String) : Except PyErr (List PyVal) :=
  match add_date (PyVal.gen (List.map
      (fun col => if col ∈ INITIAL_LAYOUT_COLUMN_NAMES then col else col)
      cols)) with
  | Except.error e => Except.error e
  | Except.ok v => Except.ok [v]

/-- The whole column-normalisation phase of the script: line 75 followed
by lines 80-84. -/
def normalizeCode (cols : List String) : Except PyErr (List PyVal) :=
  renameStep (upperUnderscore cols)

/-- Lines 126-130 of the source: the column names for which the
ALTER TABLE branch fires.  The loop draws `col_name` from
`snowf_columns` and guards the branch with
`col_name not in snowf_columns` — the same list. -/
def addedColumns (snowf_columns : List String) : List String :=
  List.filter (fun col_name => !(snowf_columns.contains col_name)) snowf_columns

/-- The SQL text of line 105: `USE WAREHOUSE` plus the warehouse name. -/
def useWarehouseStmt : String := "USE WAREHOUSE " ++ WAREHOUSE

/-- The SQL text of line 108: `USE DATABASE` plus the database name. -/
def useDatabaseStmt : String := "USE DATABASE " ++ DATABASE

/-- The SQL text of line 111: `USE SCHEMA` plus the schema name. -/
def useSchemaStmt : String := "USE SCHEMA " ++ SCHEMA

/-- The SQL text of line 115: the CREATE OR REPLACE TABLE statement,
whose table name is embedded in `INITIAL_TABLE_LAYOUT`. -/
def createStmt : String := "CREATE OR REPLACE TABLE " ++ INITIAL_TABLE_LAYOUT

/-- The SQL text of line 120: the introspection query, issued against
the module constant `TABLE`. -/
def selectStmt : String := "SELECT * FROM " ++ TABLE ++ " Limit 1"

/-- The SQL text built at lines 134-136 for one column addition,
issued against the module constant `TABLE`. -/
def alterStmt (col_name : String) : String :=
  "ALTER TABLE " ++ TABLE ++ " \nADD COLUMN " ++ col_name ++ " NUMBER(38,5);"

/-- An observable effect of the run against the warehouse session. -/
inductive SqlAction where
  | connect
  | execute (stmt : String)
  | writePandas (table database schema : String)
  | cursorClose
  | connClose
deriving DecidableEq

/-- Outcomes of the external collaborators during one run: whether the
session opens, which SQL statements the warehouse accepts, the column
names `cursor.description` reports after the SELECT, and whether the
bulk load succeeds. -/
structure Oracle where
  connectOk : Bool
  execOk : String → Bool
  introspected : List String
  writeOk : Bool

/-- Run a list of `cursor.execute` calls in order.  Each attempt is
recorded; the first rejected statement aborts the sequence (the script
has no exception handling, so the exception propagates). -/
def runExecs (o : Oracle) (stmts : List String) : List SqlAction × Bool :=
  match stmts with
  | [] => ([], true)
  | s :: rest =>
    if o.execOk s then
      ((SqlAction.execute s) :: (runExecs o rest).1, (runExecs o rest).2)
    else ([SqlAction.execute s], false)

/-- The statements executed between connecting and the column-diff
loop, in source order (lines 105-120). -/
def preLoopStmts : List String :=
  [useWarehouseStmt, useDatabaseStmt, useSchemaStmt, createStmt, selectStmt]

/-- Lines 89-155 of the source: connect, run the USE / CREATE / SELECT
statements, run the column-diff loop's ALTER statements, bulk-load,
then close the cursor and the connection.  There is no try/finally, so
the first failure ends the run with the actions attempted so far; the
two closes are reached only when every prior step succeeded. -/
def connectPhase (o : Oracle) : List SqlAction × Except PyErr Unit :=
  if o.connectOk then
    match runExecs o preLoopStmts with
    | (preActs, false) =>
        (SqlAction.connect :: preActs, Except.error PyErr.sqlError)
    | (preActs, true) =>
      match runExecs o (List.map alterStmt (addedColumns o.introspected)) with
      | (altActs, false) =>
          (SqlAction.connect :: preActs ++ altActs, Except.error PyErr.sqlError)
      | (altActs, true) =>
        if o.writeOk then
          (SqlAction.connect :: preActs ++ altActs ++
            [SqlAction.writePandas TABLE DATABASE SCHEMA,
             SqlAction.cursorClose, SqlAction.connClose],
           Except.ok ())
        else
          (SqlAction.connect :: preActs ++ altActs ++
            [SqlAction.writePandas TABLE DATABASE SCHEMA],
           Except.error PyErr.loadError)
  else ([], Except.error PyErr.authError)

/-- The whole of `main`: fetch (outcome supplied as `fetchRes`, since
the HTTP fetch is an external collaborator), normalise the column names
(line 75), rename via `add_date` (lines 80-84), then the warehouse
phase.  The result is the trace of warehouse actions attempted and the
run's outcome. -/
def mainRun (fetchRes : Except PyErr (List String)) (o : Oracle) :
    List SqlAction × Except PyErr Unit :=
  match fetchRes with
  | Except.error e => ([], Except.error e)
  | Except.ok cols =>
    match renameStep (upperUnderscore cols) with
    | Except.error e => ([], Except.error e)
    | Except.ok _ => connectPhase o

/-- The column names introspection would report for a table with the
fixed nine-column initial layout, in creation order. -/
def snowfNine : List String :=
  ["REGIONID", "SIZERANK", "REGIONNAME", "REGIONTYPE", "STATENAME",
   "STATE", "METRO", "STATECODEFIPS", "MUNICIPALCODEFIPS"]

/-- A normalized source column set holding the nine fixed columns plus
one new monthly column, as in the spec's end-to-end scenario. -/
def sampleSourceColumns : List String := snowfNine ++ ["DATE2023_06_30"]

/-- An oracle for a run where the session opens and the very first SQL
statement is rejected by the warehouse. -/
def failOracle : Oracle := ⟨true, fun _ => false, [], true⟩

/-- Traces produced by `runExecs` consist of `execute` actions only, so
they never contain a cursor-close or a connection-close action. -/
theorem runExecs_close_not_mem (o : Oracle) (stmts : List String) :
    SqlAction.cursorClose ∉ (runExecs o stmts).1 ∧
    SqlAction.connClose ∉ (runExecs o stmts).1 := by
  induction stmts with
  | nil => simp [runExecs]
  | cons s rest ih =>
    by_cases h : o.execOk s = true <;> simp [runExecs, h, ih]

/-- C1: the column-diff loop never consults the normalized source
columns at all.  At the concrete state where the destination holds the
nine fixed columns and the normalized source additionally holds
DATE2023_06_30, the loop adds no column, the missing source column
triggers zero add operations instead of exactly one, and the source
column set is not contained in the destination columns united with the
added columns. -/
theorem reconciler_misses_new_column :
    "DATE2023_06_30" ∈ sampleSourceColumns ∧
    "DATE2023_06_30" ∉ snowfNine ∧
    addedColumns snowfNine = [] ∧
    "DATE2023_06_30" ∉ snowfNine ++ addedColumns snowfNine := by decide

/-- C2: the column normalizer does not fulfil its contract: on the
concrete source column list with a fixed column, a leading-space fixed
column and one date column, the rename step hands `add_date` a
generator object and the run raises `TypeError`; no normalized output
is produced at all, so no column gains the DATE prefix and no fixed
column is reproduced. -/
theorem normalizer_raises_on_source_columns :
    normalizeCode [" REGIONID", "SIZERANK", "2023-06-30"] =
      Except.error PyErr.typeError := rfl

/-- C3: for every fetched column list and every behaviour of the
warehouse, the run stops at the rename step with a `TypeError` — the
string concatenation in `add_date` receives a generator — and the
trace of warehouse actions is empty, so the connection, table
creation, reconciliation and load steps are never reached. -/
theorem run_always_fails_before_warehouse (cols : List String) (o : Oracle) :
    mainRun (Except.ok cols) o = ([], Except.error PyErr.typeError) := rfl

/-- C4: the CREATE OR REPLACE statement creates the table named inside
`INITIAL_TABLE_LAYOUT`, namely ZILLOW_COUNTY_ZHVI_TIMESERIES, while the
introspection query and the ALTER statements are issued against the
module constant `TABLE`, namely ZHVI_COUNTY_TIMESERIES — a different
table, contradicting the claim that all four steps target the created
table. -/
theorem introspection_targets_other_table :
    createdTableName = "ZILLOW_COUNTY_ZHVI_TIMESERIES" ∧
    TABLE = "ZHVI_COUNTY_TIMESERIES" ∧
    createdTableName ≠ TABLE ∧
    selectStmt = "SELECT * FROM ZHVI_COUNTY_TIMESERIES Limit 1" ∧
    alterStmt ("DATE2023_06_30") =
      "ALTER TABLE ZHVI_COUNTY_TIMESERIES \nADD COLUMN DATE2023_06_30 NUMBER(38,5);" :=
  ⟨by decide, rfl, by decide, rfl, rfl⟩

/-- C5 counterexample: a run in which the session opens and the first
SQL statement fails exits with an error while neither the cursor nor
the connection is closed — the script has no scoped release, so the
claim that the closes execute on every exit path after the session is
opened is false. -/
theorem session_left_open_on_failure :
    SqlAction.connect ∈ (connectPhase failOracle).1 ∧
    (connectPhase failOracle).2 = Except.error PyErr.sqlError ∧
    SqlAction.cursorClose ∉ (connectPhase failOracle).1 ∧
    SqlAction.connClose ∉ (connectPhase failOracle).1 :=
  ⟨by decide, rfl, by decide, by decide⟩

/-- C5 amended: for every behaviour of the warehouse, the cursor close
and the connection close are executed exactly when the whole warehouse
phase succeeds; on every failing exit path after the session is opened,
neither close is executed. -/
theorem closes_only_on_success (o : Oracle) :
    (SqlAction.cursorClose ∈ (connectPhase o).1 ↔
      (connectPhase o).2 = Except.ok ()) ∧
    (SqlAction.connClose ∈ (connectPhase o).1 ↔
      (connectPhase o).2 = Except.ok ()) := by
  have hpre := runExecs_close_not_mem o preLoopStmts
  have halt := runExecs_close_not_mem o (List.map alterStmt (addedColumns o.introspected))
  unfold connectPhase
  by_cases hc : o.connectOk = true
  · simp only [hc, if_true]
    rcases h1 : runExecs o preLoopStmts with ⟨preActs, b1⟩
    rw [h1] at hpre
    cases b1
    · simp_all
    · rcases h2 : runExecs o (List.map alterStmt (addedColumns o.introspected)) with
        ⟨altActs, b2⟩
      rw [h2] at halt
      cases b2
      · simp_all
      · by_cases hw : o.writeOk = true <;> simp_all
  · simp [hc]

/-- C6: for every list of introspected destination column names, the
guard of the ALTER branch tests each name for absence from the very
list it was drawn from, so the branch never fires and the loop adds
zero columns. -/
theorem diff_loop_adds_nothing (snowf_columns : List String) :
    addedColumns snowf_columns = [] := by
  unfold addedColumns
  rw [List.filter_eq_nil_iff]
  intro a ha
  simp_all [List.contains]

/-- C7: the column normalizer is not idempotent in the claimed sense:
applied to an already-normalized column list it raises `TypeError`
instead of returning the list unchanged, because `add_date` receives a
generator object. -/
theorem normalizer_raises_on_normalized_input :
    normalizeCode ["SIZERANK", "DATE2023_06_30"] =
      Except.error PyErr.typeError := rfl

/-- C8: for a non-fixed date column the normalizer produces no
normalized name equal to the DATE prefix plus the transformed source
name; it raises `TypeError` before yielding any output. -/
theorem normalizer_raises_on_date_column :
    normalizeCode ["2023-06-30"] = Except.error PyErr.typeError := rfl

/-- C9: at the destination state holding the nine fixed columns, with
DATE2023_06_30 missing from the destination, the reconciler issues
zero add operations for the missing column rather than exactly one. -/
theorem reconciler_zero_adds_for_missing :
    (addedColumns snowfNine).count ("DATE2023_06_30") = 0 ∧
    "DATE2023_06_30" ∉ snowfNine := by decide

/-- C10: for every run in which the fetch step fails, the trace of
warehouse actions is empty — no create-or-replace or any other
statement is attempted against the destination table, the table is
left untouched, and no session is ever opened (so none is left
unclosed) — and the fetch error is surfaced as the run's outcome. -/
theorem fetch_failure_touches_nothing (e : PyErr) (o : Oracle) :
    mainRun (Except.error e) o = ([], Except.error e) := rfl

end ZillowPipeline
